import Mathlib

/-!
Verification development for the obsidian-task-admonitor plugin.

Shallow embedding of the plugin's core logic:
* `getNoCacheFrontMatter` embeds `AppHelper.getNoCacheFrontMatter` (app-helper.ts)
* `findDate` embeds `OldNoteAdmonitorPlugin.findDate` (main.ts)
* `removeAdmonitor` / `insertAdmonitor` embed the banner presenter (main.ts)
* `exec` embeds `OldNoteAdmonitorPlugin.exec` (main.ts), exactly as written
* `specEvaluationRun` is a spec-side definition of the evaluation pipeline,
  used only to exhibit divergence between the source and the specification.

JavaScript objects `{ [key: string]: string }` are modelled as insertion-ordered
association lists where assignment to an existing key overwrites in place.
The dayjs library (an external dependency) is modelled by the `Dayjs` structure:
an epoch-millisecond value plus the validity flag dayjs instances carry.
-/

/-- Equality on `Except` is decidable when it is on both components. -/
instance exceptDecEq {ε α : Type} [DecidableEq ε] [DecidableEq α] :
    DecidableEq (Except ε α)
  | .error x, .error y =>
    if h : x = y then isTrue (by rw [h]) else isFalse (fun c => h (Except.error.inj c))
  | .ok x, .ok y =>
    if h : x = y then isTrue (by rw [h]) else isFalse (fun c => h (Except.ok.inj c))
  | .error _, .ok _ => isFalse (fun c => Except.noConfusion c)
  | .ok _, .error _ => isFalse (fun c => Except.noConfusion c)

/-! ## JS string primitives

Structurally recursive models of the JavaScript string operations the source
uses (`split` with a one-character separator, `trim`), defined on character
lists so that concrete runs reduce definitionally. -/

/-- Split a character list at every occurrence of `sep`.  The result is
always nonempty, matching JS `String.prototype.split` with a one-character
separator string. -/
def splitOnCharAux (sep : Char) : List Char → List (List Char)
  | [] => [[]]
  | c :: cs =>
    match splitOnCharAux sep cs with
    | [] => [[]]
    | r0 :: rs => if c = sep then [] :: r0 :: rs else (c :: r0) :: rs

/-- JS `s.split(sep)` for a one-character separator. -/
def jsSplit (s : String) (sep : Char) : List String :=
  (splitOnCharAux sep s.data).map String.mk

/-- JS `s.trim()`: strip leading and trailing whitespace. -/
def jsTrim (s : String) : String :=
  String.mk (((s.data.dropWhile Char.isWhitespace).reverse.dropWhile
    Char.isWhitespace).reverse)

/-! ## JS object model: insertion-ordered string maps -/

/-- JS object property write: overwrite in place when the key exists,
append otherwise. -/
def objSet (fm : List (String × String)) (k v : String) : List (String × String) :=
  if fm.any (fun p => p.1 = k) then
    fm.map (fun p => if p.1 = k then (k, v) else p)
  else
    fm ++ [(k, v)]

/-- JS object property read (`fm?.[key]`). -/
def objGet (fm : List (String × String)) (k : String) : Option String :=
  (fm.find? (fun p => p.1 = k)).map (fun p => p.2)

/-! ## Front Matter Extractor (`AppHelper.getNoCacheFrontMatter`) -/

/-- Does the character list start with `' '` followed by at least one more
character?  Helper for `hasColonSpaceThenChar`. -/
def spaceThenChar : List Char → Bool
  | ' ' :: _ :: _ => true
  | _ => false

/-- Does the character list contain an occurrence of `':'` followed by `' '`
followed by at least one further character?  Helper for `kvTest`. -/
def hasColonSpaceThenChar : List Char → Bool
  | [] => false
  | c :: cs => ((c == ':') && spaceThenChar cs) || hasColonSpaceThenChar cs

/-- The regex test `/.+: .+/.test(line)`: the line contains `": "` with at
least one character before the colon and at least one after the space. -/
def kvTest (cs : List Char) : Bool :=
  match cs with
  | [] => false
  | _ :: rest => hasColonSpaceThenChar rest

/-- One iteration of the `forEach` body in `getNoCacheFrontMatter`.
A line equal to `---` only skips the iteration (the `return frontMatter`
inside the callback returns from the callback, not from the function), a line
passing the regex test is split on every `":"` after trimming the whole line,
and its first two fragments become key and value. -/
def processLine (fm : List (String × String)) (line : String) : List (String × String) :=
  if line = "---" then fm
  else if kvTest line.data then
    let parts := jsSplit (jsTrim line) ':'
    objSet fm (parts.headD "") (parts.tail.headD "")
  else fm

/-- Embedding of `AppHelper.getNoCacheFrontMatter`: split on `"\n"`, require
the first line to be `---`, then fold the `forEach` body over all remaining
lines (the callback's early `return` cannot stop `forEach`, so every
remaining line is processed). -/
def getNoCacheFrontMatter (content : String) : Option (List (String × String)) :=
  match jsSplit content '\n' with
  | [] => none
  | l0 :: rest =>
    if l0 ≠ "---" then none
    else some (rest.foldl processLine [])

/-! ## Model of the dayjs library -/

/-- Model of a dayjs instance: epoch milliseconds plus the validity flag a
dayjs object carries (`isValid()`).  A dayjs instance is a JS object and is
therefore always truthy, valid or not. -/
structure Dayjs where
  valid : Bool
  ms : Int
  deriving DecidableEq, Repr

/-- `dayjs(n)` on a number: a valid instance at those epoch milliseconds.
Also models `dayjs()` when applied to the current time. -/
def dayjsOfMs (n : Int) : Dayjs :=
  { valid := true, ms := n }

/-- A dayjs instance is a JS object, hence always truthy: the test
`!lastUpdated` on a `Dayjs` value is always false. -/
def dayjsIsFalsy (_ : Dayjs) : Bool :=
  false

/-- Days from civil date (proleptic Gregorian, Howard Hinnant's algorithm),
used to model dayjs date arithmetic at UTC midnight. -/
def daysFromCivil (y m d : Int) : Int :=
  let y' := if m ≤ 2 then y - 1 else y
  let era := Int.fdiv y' 400
  let yoe := y' - era * 400
  let mp := Int.fmod (m + 9) 12
  let doy := Int.fdiv (153 * mp + 2) 5 + d - 1
  let doe := yoe * 365 + Int.fdiv yoe 4 - Int.fdiv yoe 100 + doy
  era * 146097 + doe - 719468

/-- Civil date from days since the epoch (inverse of `daysFromCivil`). -/
def civilFromDays (z : Int) : Int × Nat × Nat :=
  let z' := z + 719468
  let era := Int.fdiv z' 146097
  let doe := (z' - era * 146097).toNat
  let yoe := (doe - doe / 1460 + doe / 36524 - doe / 146096) / 365
  let y := (yoe : Int) + era * 400
  let doy := doe - (365 * yoe + yoe / 4 - yoe / 100)
  let mp := (5 * doy + 2) / 153
  let d := doy - (153 * mp + 2) / 5 + 1
  let m := if mp < 10 then mp + 3 else mp - 9
  (if m ≤ 2 then y + 1 else y, m, d)

/-- Numeric value of a decimal digit character. -/
def digitVal (c : Char) : Nat :=
  c.toNat - 48

/-- Parse a `YYYY-MM-DD` (or `YYYY/MM/DD`) date string into (year, month,
day).  Helper for the model of the dayjs string constructor. -/
def parseYMDChars : List Char → Option (Int × Int × Int)
  | [y1, y2, y3, y4, s1, m1, m2, s2, d1, d2] =>
    if (s1 = '-' ∨ s1 = '/') ∧ (s2 = '-' ∨ s2 = '/')
        ∧ ([y1, y2, y3, y4, m1, m2, d1, d2].all Char.isDigit) then
      let y := ((digitVal y1 * 10 + digitVal y2) * 10 + digitVal y3) * 10 + digitVal y4
      let mo := digitVal m1 * 10 + digitVal m2
      let da := digitVal d1 * 10 + digitVal d2
      if 1 ≤ mo ∧ mo ≤ 12 ∧ 1 ≤ da ∧ da ≤ 31 then
        some ((y : Int), (mo : Int), (da : Int))
      else none
    else none
  | _ => none

/-- Model of the dayjs string constructor `dayjs(s)`, restricted to the
calendar-date forms the plugin's configuration deals in (`YYYY-MM-DD` /
`YYYY/MM/DD`, surrounding whitespace tolerated, taken at UTC midnight).
Any other string yields an instance whose validity flag is false: dayjs
never throws on unparseable input, it returns an invalid instance. -/
def dayjsParse (s : String) : Dayjs :=
  match parseYMDChars (jsTrim s).data with
  | some (y, m, d) => { valid := true, ms := daysFromCivil y m d * 86400000 }
  | none => { valid := false, ms := 0 }

/-- Model of `a.diff(b, "day")`: millisecond difference divided by the
milliseconds of a day, truncated toward zero (dayjs's `absFloor`). -/
def dayjsDiffDays (a b : Dayjs) : Int :=
  Int.tdiv (a.ms - b.ms) 86400000

/-- Left-pad a natural number with zeros to the given width. -/
def padNat (width n : Nat) : String :=
  let s := toString n
  if s.length < width then String.mk (List.replicate (width - s.length) '0') ++ s
  else s

/-- Model of `d.format("YYYY-MM-DD")` (UTC). -/
def dayjsFormatYMD (d : Dayjs) : String :=
  let c := civilFromDays (Int.fdiv d.ms 86400000)
  padNat 4 c.1.toNat ++ "-" ++ padNat 2 c.2.1 ++ "-" ++ padNat 2 c.2.2

/-! ## JS string `replace` (first occurrence only) -/

/-- Does `s` start with `p`? -/
def listStartsWith : List Char → List Char → Bool
  | _, [] => true
  | [], _ :: _ => false
  | c :: cs, p :: ps => c = p && listStartsWith cs ps

/-- Replace the first occurrence of `pat` in `s` by `rep`
(JS `String.prototype.replace` with a string pattern). -/
def listReplaceFirst (s pat rep : List Char) : List Char :=
  match s with
  | [] => if pat = [] then rep else []
  | c :: cs =>
    if pat ≠ [] ∧ listStartsWith (c :: cs) pat then
      rep ++ (c :: cs).drop pat.length
    else
      c :: listReplaceFirst cs pat rep

/-- JS `s.replace(pat, rep)` on strings: first occurrence only. -/
def replaceFirst (s pat rep : String) : String :=
  String.mk (listReplaceFirst s.data pat.data rep.data)

/-- The template rendering in `exec`:
`template.replace("$\x7bnumberOfDays\x7d", days).replace("$\x7bdate\x7d", date)`. -/
def renderTemplate (template : String) (numberOfDays : Int) (date : String) : String :=
  replaceFirst (replaceFirst template "$\x7bnumberOfDays\x7d" (toString numberOfDays))
    "$\x7bdate\x7d" date

/-! ## Settings (settings.ts) -/

/-- The `Settings` interface of settings.ts.  The TypeScript union types for
`dateToBeReferred` and `triggerToUpdate` are erased at runtime, so they are
modelled as strings (the switch in `findDate` has a default branch precisely
because an out-of-union value can reach it). -/
structure Settings where
  minNumberOfDaysToShowWarning : Int
  messageTemplate : String
  showWarningIfDataIsNotFound : Bool
  triggerToUpdate : String
  dateToBeReferred : String
  frontMatterKey : String
  captureGroupPattern : String
  excludePrefixPathPatterns : List String
  deriving DecidableEq, Repr

/-- The `DEFAULT_SETTINGS` constant of settings.ts. -/
def DEFAULT_SETTINGS : Settings :=
  { minNumberOfDaysToShowWarning := 180
    messageTemplate := "The content has been no updated for over $\x7bnumberOfDays\x7d days"
    showWarningIfDataIsNotFound := false
    triggerToUpdate := "On open file"
    dateToBeReferred := "Modified time"
    frontMatterKey := "updated"
    captureGroupPattern := "^// (?<date>[0-9]\x7b4\x7d/[0-9]\x7b2\x7d/[0-9]\x7b2\x7d)"
    excludePrefixPathPatterns := [] }

/-! ## Banner Presenter (main.ts) -/

def ADMONITOR_CLS : String := "old-note-admonitor__old-note-container"
def ADMONITOR_WARNING_CLS : String := "old-note-admonitor__old-note-container__warning"
def ADMONITOR_ERR_CLS : String := "old-note-admonitor__old-note-container__error"

/-- A DOM element sitting before the view header in a markdown view's
container: its text content and its class list. -/
structure BannerEl where
  text : String
  cls : List String
  deriving DecidableEq, Repr

/-- The banner-relevant state of a markdown view: the elements placed before
the `.view-header` element, in document order. -/
abbrev View := List BannerEl

/-- Number of elements carrying the admonitor marker class. -/
def countAdmonitors (v : View) : Nat :=
  (v.filter (fun e => e.cls.contains ADMONITOR_CLS)).length

/-- Embedding of `removeAdmonitor`:
`containerEl.find(".{cls}")?.remove()` removes the first element carrying
the admonitor marker class, if any. -/
def removeAdmonitor : View → View
  | [] => []
  | e :: rest =>
    if e.cls.contains ADMONITOR_CLS then rest
    else e :: removeAdmonitor rest

/-- Modelled from the spec: the `ExhaustiveError` class of errors.ts is not
under src/; per §7 it is an unrecoverable fatal error carrying the
unexpected value, modelled as a thrown error string. -/
def exhaustiveError (x : String) : String :=
  "ExhaustiveError: " ++ x

/-- Embedding of `insertAdmonitor`: build the class list via the switch on
the admonitor type (default branch throws `ExhaustiveError`), create the
element and insert it immediately before the view header, i.e. after every
element already sitting before the header. -/
def insertAdmonitor (v : View) (text : String) (type : String) :
    Except String View :=
  if type = "warning" then
    .ok (v ++ [{ text := text, cls := [ADMONITOR_CLS, ADMONITOR_WARNING_CLS] }])
  else if type = "error" then
    .ok (v ++ [{ text := text, cls := [ADMONITOR_CLS, ADMONITOR_ERR_CLS] }])
  else
    .error (exhaustiveError type)

/-! ## Date Resolver (`findDate`, main.ts) -/

/-- The JS regex engine behind `line.matchAll(new RegExp(pattern, "g"))`,
treated as an abstract collaborator: given the pattern and one line it yields
the first match's named group `date` (or none when the line does not match
or the group did not participate). -/
abbrev Matcher := String → String → Option String

/-- The candidate date string of the front-matter strategy:
`getNoCacheFrontMatter(await cachedRead(file))?.[settings.frontMatterKey]`. -/
def frontMatterCandidate (s : Settings) (content : String) : Option String :=
  (getNoCacheFrontMatter content).bind (fun l => objGet l s.frontMatterKey)

/-- The candidate date string of the capture-group strategy: map the matcher
over the content's lines, drop JS-falsy results (`filter(x => x)` removes
both `undefined` and the empty string), take the first. -/
def captureCandidate (s : Settings) (m : Matcher) (content : String) : Option String :=
  ((((jsSplit content '\n').map
    (fun line => m s.captureGroupPattern line)).filterMap id).filter
      (fun v => v ≠ "")).head?

/-- Embedding of `OldNoteAdmonitorPlugin.findDate`.  The switch dispatches on
`settings.dateToBeReferred`; its default branch throws `ExhaustiveError`.
`file.stat.mtime` is the `mtime` argument; `cachedRead` content is the
`content` argument.  JS truthiness of the candidate string (`df ? dayjs(df)
: undefined`) makes the empty string resolve to `undefined`. -/
def findDate (s : Settings) (m : Matcher) (content : String) (mtime : Int) :
    Except String (Option Dayjs) :=
  if s.dateToBeReferred = "Modified time" then
    .ok (some (dayjsOfMs mtime))
  else if s.dateToBeReferred = "Front matter" then
    .ok (match frontMatterCandidate s content with
      | some v => if v ≠ "" then some (dayjsParse v) else none
      | none => none)
  else if s.dateToBeReferred = "Capture group" then
    .ok (match captureCandidate s m content with
      | some v => if v ≠ "" then some (dayjsParse v) else none
      | none => none)
  else
    .error (exhaustiveError s.dateToBeReferred)

/-! ## Lifecycle / evaluation (`exec`, main.ts) -/

/-- Embedding of `OldNoteAdmonitorPlugin.exec`, exactly as written in the
source: the admonitor is removed; then `lastUpdated` is assigned
`await dayjs()` — the CURRENT time, not the result of `findDate` (which this
method never calls) — so the `!lastUpdated` branch is dead (a dayjs instance
is truthy) and `numberOfDays` is `dayjs().diff(dayjs(), "day") = 0`.
The guard on a missing markdown view is modelled by `exec` only being
applied to a present view. -/
def exec (s : Settings) (now : Int) (view : View) : Except String View :=
  let v1 := removeAdmonitor view
  let lastUpdated := dayjsOfMs now
  if dayjsIsFalsy lastUpdated then
    if s.showWarningIfDataIsNotFound then
      insertAdmonitor v1 "The date was not found" "error"
    else
      .ok v1
  else
    let numberOfDays := dayjsDiffDays (dayjsOfMs now) lastUpdated
    if s.minNumberOfDaysToShowWarning ≤ numberOfDays then
      insertAdmonitor v1
        (renderTemplate s.messageTemplate numberOfDays (dayjsFormatYMD lastUpdated))
        "warning"
    else
      .ok v1

/-- Spec-side definition of a full evaluation run, following §4.2–§4.4 of the
specification: resolve `lastUpdated` through the Date Resolver (`findDate`),
then feed the result to the Staleness Evaluator, whose decision drives the
Banner Presenter (clear, then optionally redraw).  Used only to compare the
source's `exec` against the specified pipeline. -/
def specEvaluationRun (s : Settings) (m : Matcher) (content : String)
    (mtime : Int) (now : Int) (view : View) : Except String View :=
  let v1 := removeAdmonitor view
  match findDate s m content mtime with
  | .error e => .error e
  | .ok none =>
    if s.showWarningIfDataIsNotFound then
      insertAdmonitor v1 "The date was not found" "error"
    else
      .ok v1
  | .ok (some lastUpdated) =>
    let numberOfDays := dayjsDiffDays (dayjsOfMs now) lastUpdated
    if s.minNumberOfDaysToShowWarning ≤ numberOfDays then
      insertAdmonitor v1
        (renderTemplate s.messageTemplate numberOfDays (dayjsFormatYMD lastUpdated))
        "warning"
    else
      .ok v1

/-- The default settings with the front-matter strategy selected. -/
def frontMatterSettings : Settings :=
  { DEFAULT_SETTINGS with dateToBeReferred := "Front matter" }

/-- Front-matter strategy, warn-on-missing-date enabled, threshold 5. -/
def warnOnMissingSettings : Settings :=
  { frontMatterSettings with
    showWarningIfDataIsNotFound := true
    minNumberOfDaysToShowWarning := 5 }

/-- Front-matter strategy, warn-on-missing-date disabled, threshold 0. -/
def noWarnZeroThresholdSettings : Settings :=
  { frontMatterSettings with
    showWarningIfDataIsNotFound := false
    minNumberOfDaysToShowWarning := 0 }

/-! ## Support lemmas -/

theorem countAdmonitors_cons (e : BannerEl) (v : View) :
    countAdmonitors (e :: v) =
      (if ADMONITOR_CLS ∈ e.cls then 1 else 0) + countAdmonitors v := by
  by_cases h : ADMONITOR_CLS ∈ e.cls <;>
    simp [countAdmonitors, List.filter_cons, h, Nat.add_comm]

theorem countAdmonitors_append (v w : View) :
    countAdmonitors (v ++ w) = countAdmonitors v + countAdmonitors w := by
  simp [countAdmonitors, List.filter_append]

theorem removeAdmonitor_of_no_admonitor (v : View)
    (h : countAdmonitors v = 0) : removeAdmonitor v = v := by
  induction v with
  | nil => rfl
  | cons e rest ih =>
    rw [countAdmonitors_cons] at h
    by_cases he : ADMONITOR_CLS ∈ e.cls
    · simp [he] at h
    · simp only [he, if_false, Nat.zero_add] at h
      simp [removeAdmonitor, he, ih h]

theorem countAdmonitors_removeAdmonitor (v : View)
    (h : countAdmonitors v ≤ 1) : countAdmonitors (removeAdmonitor v) = 0 := by
  induction v with
  | nil => rfl
  | cons e rest ih =>
    rw [countAdmonitors_cons] at h
    by_cases he : ADMONITOR_CLS ∈ e.cls
    · simp only [he, if_true] at h
      have hrw : removeAdmonitor (e :: rest) = rest := by simp [removeAdmonitor, he]
      rw [hrw]
      omega
    · simp only [he, if_false, Nat.zero_add] at h
      have hrw : removeAdmonitor (e :: rest) = e :: removeAdmonitor rest := by
        simp [removeAdmonitor, he]
      rw [hrw, countAdmonitors_cons]
      simp [he, ih h]

theorem removeAdmonitor_append_admonitor (v : View) (e : BannerEl)
    (hv : countAdmonitors v = 0) (he : ADMONITOR_CLS ∈ e.cls) :
    removeAdmonitor (v ++ [e]) = v := by
  induction v with
  | nil => simp [removeAdmonitor, he]
  | cons f rest ih =>
    rw [countAdmonitors_cons] at hv
    by_cases hf : ADMONITOR_CLS ∈ f.cls
    · simp [hf] at hv
    · simp only [hf, if_false, Nat.zero_add] at hv
      simp [removeAdmonitor, hf, ih hv]

theorem dayjsDiffDays_self (d : Dayjs) : dayjsDiffDays d d = 0 := by
  simp [dayjsDiffDays, Int.zero_tdiv]

theorem spaceThenChar_decomp (cs : List Char) (h : spaceThenChar cs = true) :
    ∃ d rest, cs = ' ' :: d :: rest := by
  unfold spaceThenChar at h
  split at h
  · exact ⟨_, _, rfl⟩
  · simp at h

theorem hasColonSpaceThenChar_decomp (l : List Char)
    (h : hasColonSpaceThenChar l = true) :
    ∃ p b : List Char, b ≠ [] ∧ l = p ++ ':' :: ' ' :: b := by
  induction l with
  | nil => simp [hasColonSpaceThenChar] at h
  | cons c cs ih =>
    rw [hasColonSpaceThenChar] at h
    simp only [Bool.or_eq_true, Bool.and_eq_true, beq_iff_eq] at h
    rcases h with ⟨hc, hs⟩ | h2
    · obtain ⟨d, rest, rfl⟩ := spaceThenChar_decomp cs hs
      exact ⟨[], d :: rest, by simp, by simp [hc]⟩
    · obtain ⟨p, b, hb, rfl⟩ := ih h2
      exact ⟨c :: p, b, hb, rfl⟩

theorem kvTest_decomp (cs : List Char) (h : kvTest cs = true) :
    ∃ a b : List Char, a ≠ [] ∧ b ≠ [] ∧ cs = a ++ ':' :: ' ' :: b := by
  match cs, h with
  | [], h => simp [kvTest] at h
  | c :: rest, h =>
    obtain ⟨p, b, hb, hrest⟩ := hasColonSpaceThenChar_decomp rest h
    exact ⟨c :: p, b, by simp, hb, by simp [hrest]⟩

/-! ## Claims -/

/-- C1: the claim says the staleness decision is computed from the Date
Resolver's output for the configured strategy.  In the source, `exec` assigns
`lastUpdated = await dayjs()` (the current time) and never calls `findDate`:
with the modified-time strategy, a file whose mtime is 365 days old and a
180-day threshold, the resolver yields the old date and the spec pipeline
(`specEvaluationRun`) shows a warning banner, while the source's `exec`
computes `dayjs().diff(dayjs(), "day") = 0` and shows nothing. -/
theorem C1_staleness_ignores_resolver :
    findDate DEFAULT_SETTINGS (fun _ _ => none) "" 0 = .ok (some (dayjsOfMs 0))
    ∧ dayjsDiffDays (dayjsOfMs (365 * 86400000)) (dayjsOfMs 0) = 365
    ∧ specEvaluationRun DEFAULT_SETTINGS (fun _ _ => none) "" 0 (365 * 86400000) []
        = .ok [{ text := "The content has been no updated for over 365 days",
                 cls := [ADMONITOR_CLS, ADMONITOR_WARNING_CLS] }]
    ∧ exec DEFAULT_SETTINGS (365 * 86400000) [] = .ok [] := by
  decide

/-- C2 (counterexample): `insertAdmonitor` does not call `removeAdmonitor`
first; two consecutive insert calls on the same view leave two banner
elements, refuting the single-banner claim for `insert`. -/
theorem C2_counterexample :
    insertAdmonitor [] "first" "warning"
      = .ok [{ text := "first", cls := [ADMONITOR_CLS, ADMONITOR_WARNING_CLS] }]
    ∧ insertAdmonitor [{ text := "first", cls := [ADMONITOR_CLS, ADMONITOR_WARNING_CLS] }]
        "second" "error"
      = .ok [{ text := "first", cls := [ADMONITOR_CLS, ADMONITOR_WARNING_CLS] },
             { text := "second", cls := [ADMONITOR_CLS, ADMONITOR_ERR_CLS] }]
    ∧ countAdmonitors
        [{ text := "first", cls := [ADMONITOR_CLS, ADMONITOR_WARNING_CLS] },
         { text := "second", cls := [ADMONITOR_CLS, ADMONITOR_ERR_CLS] }] = 2 := by
  decide

/-- C2 (amended): `insertAdmonitor` performs no removal: with a recognized
kind it appends one new banner element carrying the call's text before the
view header, so two consecutive insert calls leave two banner elements (the
second call's banner last); the single-banner invariant is not guaranteed by
`insert` itself (it is re-established by `exec`, which removes first). -/
theorem C2_insert_appends (v : View) (t1 k1 t2 k2 : String)
    (h1 : k1 = "warning" ∨ k1 = "error") (h2 : k2 = "warning" ∨ k2 = "error") :
    ∃ e1 e2 : BannerEl,
      e1.text = t1 ∧ e2.text = t2 ∧
      ADMONITOR_CLS ∈ e1.cls ∧ ADMONITOR_CLS ∈ e2.cls ∧
      insertAdmonitor v t1 k1 = .ok (v ++ [e1]) ∧
      insertAdmonitor (v ++ [e1]) t2 k2 = .ok (v ++ [e1, e2]) ∧
      countAdmonitors (v ++ [e1, e2]) = countAdmonitors v + 2 := by
  rcases h1 with rfl | rfl <;> rcases h2 with rfl | rfl
  · exact ⟨⟨t1, [ADMONITOR_CLS, ADMONITOR_WARNING_CLS]⟩,
      ⟨t2, [ADMONITOR_CLS, ADMONITOR_WARNING_CLS]⟩, rfl, rfl, by simp, by simp,
      by simp [insertAdmonitor], by simp [insertAdmonitor],
      by simp [countAdmonitors_append, countAdmonitors_cons, countAdmonitors]⟩
  · exact ⟨⟨t1, [ADMONITOR_CLS, ADMONITOR_WARNING_CLS]⟩,
      ⟨t2, [ADMONITOR_CLS, ADMONITOR_ERR_CLS]⟩, rfl, rfl, by simp, by simp,
      by simp [insertAdmonitor], by simp [insertAdmonitor],
      by simp [countAdmonitors_append, countAdmonitors_cons, countAdmonitors]⟩
  · exact ⟨⟨t1, [ADMONITOR_CLS, ADMONITOR_ERR_CLS]⟩,
      ⟨t2, [ADMONITOR_CLS, ADMONITOR_WARNING_CLS]⟩, rfl, rfl, by simp, by simp,
      by simp [insertAdmonitor], by simp [insertAdmonitor],
      by simp [countAdmonitors_append, countAdmonitors_cons, countAdmonitors]⟩
  · exact ⟨⟨t1, [ADMONITOR_CLS, ADMONITOR_ERR_CLS]⟩,
      ⟨t2, [ADMONITOR_CLS, ADMONITOR_ERR_CLS]⟩, rfl, rfl, by simp, by simp,
      by simp [insertAdmonitor], by simp [insertAdmonitor],
      by simp [countAdmonitors_append, countAdmonitors_cons, countAdmonitors]⟩

/-- Witness for `C2_insert_appends` at a concrete view and kinds. -/
theorem C2_insert_appends_witness :
    ("warning" = "warning" ∨ "warning" = "error")
    ∧ ("error" = "warning" ∨ "error" = "error")
    ∧ ∃ e1 e2 : BannerEl,
        e1.text = "a" ∧ e2.text = "b" ∧
        ADMONITOR_CLS ∈ e1.cls ∧ ADMONITOR_CLS ∈ e2.cls ∧
        insertAdmonitor [] "a" "warning" = .ok ([] ++ [e1]) ∧
        insertAdmonitor ([] ++ [e1]) "b" "error" = .ok ([] ++ [e1, e2]) ∧
        countAdmonitors ([] ++ [e1, e2]) = countAdmonitors [] + 2 :=
  ⟨Or.inl rfl, Or.inr rfl,
    C2_insert_appends [] "a" "warning" "b" "error" (Or.inl rfl) (Or.inr rfl)⟩

/-- C3: the claim says extraction stops at the first closing `---` and that
no later line contributes an entry.  The `return frontMatter` in the source
sits inside a `forEach` callback and only skips that one iteration, so lines
after the closing delimiter DO contribute: here the body line `b: 2`,
appearing after the closing `---`, ends up in the mapping. -/
theorem C3_lines_after_close_contribute :
    getNoCacheFrontMatter "---\na: 1\n---\nb: 2" = some [("a", " 1"), ("b", " 2")]
    ∧ getNoCacheFrontMatter "---\n---\nafter: value" = some [("after", " value")] := by
  decide

/-- C4 (counterexample): the claim says key and value are both trimmed and
that `"---\nupdated: 2024-01-01\n---\n"` maps `updated` to `"2024-01-01"`.
The source trims the whole line and splits on `":"`, so the value keeps the
leading space after the colon: the entry is `" 2024-01-01"`. -/
theorem C4_counterexample :
    getNoCacheFrontMatter "---\nupdated: 2024-01-01\n---\n"
      ≠ some [("updated", "2024-01-01")]
    ∧ getNoCacheFrontMatter "---\nupdated: 2024-01-01\n---\n"
      = some [("updated", " 2024-01-01")] := by
  decide

/-- C4 (amended): the whole line is trimmed before splitting on `":"`; the
key is the text before the first colon and the value the text between the
first and second colon, neither individually trimmed, so the value keeps the
leading space: the example text maps `updated` to `" 2024-01-01"`, and the
line `key: a: b` yields the entry `("key", " a")` (content after the second
colon dropped). -/
theorem C4_value_keeps_leading_space :
    getNoCacheFrontMatter "---\nupdated: 2024-01-01\n---\n"
      = some [("updated", " 2024-01-01")]
    ∧ getNoCacheFrontMatter "---\nkey: a: b\n---" = some [("key", " a")] := by
  decide

/-- C5 (counterexample): the claim says an unparseable candidate date string
makes the resolver return an absent result, never a present-but-invalid
date.  With the front-matter strategy and value `xyz` (candidate string
`" xyz"`, unparseable), `findDate` returns `dayjs(" xyz")` — a PRESENT
instance whose validity flag is false — because the source never checks
`isValid()`. -/
theorem C5_counterexample :
    frontMatterCandidate frontMatterSettings
        "---\nupdated: xyz\n---" = some " xyz"
    ∧ (dayjsParse " xyz").valid = false
    ∧ findDate frontMatterSettings
        (fun _ _ => none) "---\nupdated: xyz\n---" 0
      = .ok (some { valid := false, ms := 0 })
    ∧ findDate frontMatterSettings
        (fun _ _ => none) "---\nupdated: xyz\n---" 0 ≠ .ok none := by
  decide

/-- C5 (amended): under the front-matter or capture-group strategy, a
nonempty candidate date string that cannot be parsed makes the resolver
return a PRESENT dayjs instance whose validity flag is false (dayjs never
throws); the result is not absent.  Absent is returned only when no (JS-
truthy) candidate string is found at all. -/
theorem C5_unparseable_is_present_invalid (s : Settings) (m : Matcher)
    (content : String) (mtime : Int) (v : String)
    (hinv : (dayjsParse v).valid = false)
    (hc : (s.dateToBeReferred = "Front matter"
            ∧ frontMatterCandidate s content = some v ∧ v ≠ "")
        ∨ (s.dateToBeReferred = "Capture group"
            ∧ captureCandidate s m content = some v ∧ v ≠ "")) :
    ∃ d : Dayjs, findDate s m content mtime = .ok (some d) ∧ d.valid = false
      ∧ findDate s m content mtime ≠ .ok none := by
  rcases hc with ⟨hd, hfm, hne⟩ | ⟨hd, hcc, hne⟩
  · have he : findDate s m content mtime = .ok (some (dayjsParse v)) := by
      simp [findDate, hd, hfm, hne]
    exact ⟨dayjsParse v, he, hinv, by simp [he]⟩
  · have he : findDate s m content mtime = .ok (some (dayjsParse v)) := by
      simp [findDate, hd, hcc, hne]
    exact ⟨dayjsParse v, he, hinv, by simp [he]⟩

/-- Witness for `C5_unparseable_is_present_invalid` at a concrete document
whose front-matter `updated` value is the unparseable `xyz`. -/
theorem C5_unparseable_is_present_invalid_witness :
    (dayjsParse " xyz").valid = false
    ∧ frontMatterCandidate frontMatterSettings
        "---\nupdated: xyz\n---" = some " xyz"
    ∧ ∃ d : Dayjs,
        findDate frontMatterSettings
          (fun _ _ => none) "---\nupdated: xyz\n---" 0 = .ok (some d)
        ∧ d.valid = false
        ∧ findDate frontMatterSettings
          (fun _ _ => none) "---\nupdated: xyz\n---" 0 ≠ .ok none :=
  ⟨by decide, by decide,
    C5_unparseable_is_present_invalid _ (fun _ _ => none) _ 0 " xyz" (by decide)
      (Or.inl ⟨rfl, by decide, by decide⟩)⟩

/-- C6: the claim says an absent resolved date with
`showWarningIfDataIsNotFound = true` yields the error banner "The date was
not found", and with the flag false no banner.  In the source the
missing-date branch of `exec` is dead: `lastUpdated` is `dayjs()`, a truthy
object, never the resolver's output.  With the front-matter strategy on a
document with no front matter the resolver yields absent, yet with the flag
on (threshold 5) `exec` shows NO banner, and with the flag off and threshold
0 `exec` even shows a WARNING banner. -/
theorem C6_missing_date_branch_dead :
    findDate warnOnMissingSettings (fun _ _ => none) "body" 0 = .ok none
    ∧ exec warnOnMissingSettings 0 [] = .ok []
    ∧ findDate noWarnZeroThresholdSettings (fun _ _ => none) "body" 0 = .ok none
    ∧ exec noWarnZeroThresholdSettings 0 []
      = .ok [{ text := "The content has been no updated for over 0 days",
               cls := [ADMONITOR_CLS, ADMONITOR_WARNING_CLS] }] := by
  decide

/-- C7: the claim says a warning appears iff the day difference between now
and the RESOLVED date reaches `minDaysToWarn` (180 warns at exactly 180 days).
In the source `exec` diffs `dayjs()` against `dayjs()`, so `numberOfDays` is
always 0: with the default settings (modified time, threshold 180) and an
mtime exactly 180 days before now, the spec pipeline shows the warning (and
none at 179 days), while the source's `exec` shows nothing at either. -/
theorem C7_threshold_compares_now_with_now :
    findDate DEFAULT_SETTINGS (fun _ _ => none) "" 0 = .ok (some (dayjsOfMs 0))
    ∧ dayjsDiffDays (dayjsOfMs (180 * 86400000)) (dayjsOfMs 0) = 180
    ∧ dayjsDiffDays (dayjsOfMs (179 * 86400000)) (dayjsOfMs 0) = 179
    ∧ specEvaluationRun DEFAULT_SETTINGS (fun _ _ => none) "" 0 (180 * 86400000) []
        = .ok [{ text := "The content has been no updated for over 180 days",
                 cls := [ADMONITOR_CLS, ADMONITOR_WARNING_CLS] }]
    ∧ specEvaluationRun DEFAULT_SETTINGS (fun _ _ => none) "" 0 (179 * 86400000) []
        = .ok []
    ∧ exec DEFAULT_SETTINGS (180 * 86400000) [] = .ok []
    ∧ exec DEFAULT_SETTINGS (179 * 86400000) [] = .ok [] := by
  decide

/-- C8: running `exec` twice in a row with unchanged configuration (and
unchanged time; `exec` as written reads no document content at all) yields
the same banner end-state: from any view state satisfying the single-banner
invariant, the first run produces a state `w` and the second run maps `w`
back to `w`. -/
theorem C8_evaluation_idempotent (s : Settings) (now : Int) (v : View)
    (h : countAdmonitors v ≤ 1) :
    ∃ w, exec s now v = .ok w ∧ exec s now w = .ok w := by
  have h0 : countAdmonitors (removeAdmonitor v) = 0 :=
    countAdmonitors_removeAdmonitor v h
  by_cases hm : s.minNumberOfDaysToShowWarning ≤ 0
  · refine ⟨removeAdmonitor v ++
      [{ text := renderTemplate s.messageTemplate 0 (dayjsFormatYMD (dayjsOfMs now)),
         cls := [ADMONITOR_CLS, ADMONITOR_WARNING_CLS] }], ?_, ?_⟩
    · simp [exec, dayjsIsFalsy, dayjsDiffDays_self, hm, insertAdmonitor]
    · have hr : removeAdmonitor (removeAdmonitor v ++
          [{ text := renderTemplate s.messageTemplate 0 (dayjsFormatYMD (dayjsOfMs now)),
             cls := [ADMONITOR_CLS, ADMONITOR_WARNING_CLS] }]) = removeAdmonitor v :=
        removeAdmonitor_append_admonitor _ _ h0 (by simp)
      simp [exec, dayjsIsFalsy, dayjsDiffDays_self, hm, insertAdmonitor, hr]
  · refine ⟨removeAdmonitor v, ?_, ?_⟩
    · simp [exec, dayjsIsFalsy, dayjsDiffDays_self, hm]
    · simp [exec, dayjsIsFalsy, dayjsDiffDays_self, hm,
        removeAdmonitor_of_no_admonitor _ h0]

/-- Witness for `C8_evaluation_idempotent` at the default settings and an
empty view. -/
theorem C8_evaluation_idempotent_witness :
    countAdmonitors [] ≤ 1
    ∧ ∃ w, exec DEFAULT_SETTINGS 0 [] = .ok w ∧ exec DEFAULT_SETTINGS 0 w = .ok w :=
  ⟨by decide, C8_evaluation_idempotent DEFAULT_SETTINGS 0 [] (by decide)⟩

/-- C9: an unrecognized `dateToBeReferred` value makes `findDate` throw the
`ExhaustiveError` (never a silent absent result), and an unrecognized banner
kind makes `insertAdmonitor` throw it (never a silent skip). -/
theorem C9_unrecognized_enum_throws :
    (∀ (s : Settings) (m : Matcher) (content : String) (mtime : Int),
      s.dateToBeReferred ≠ "Modified time" → s.dateToBeReferred ≠ "Front matter" →
      s.dateToBeReferred ≠ "Capture group" →
      findDate s m content mtime = .error (exhaustiveError s.dateToBeReferred))
    ∧ (∀ (v : View) (t k : String), k ≠ "warning" → k ≠ "error" →
      insertAdmonitor v t k = .error (exhaustiveError k)) := by
  constructor
  · intro s m content mtime h1 h2 h3
    simp [findDate, h1, h2, h3]
  · intro v t k h1 h2
    simp [insertAdmonitor, h1, h2]

/-- Witness for `C9_unrecognized_enum_throws` at the concrete out-of-union
values `"Bogus"` and `"info"`. -/
theorem C9_unrecognized_enum_throws_witness :
    findDate { DEFAULT_SETTINGS with dateToBeReferred := "Bogus" }
      (fun _ _ => none) "" 0 = .error (exhaustiveError "Bogus")
    ∧ insertAdmonitor [] "t" "info" = .error (exhaustiveError "info") :=
  ⟨C9_unrecognized_enum_throws.1 _ _ _ _ (by decide) (by decide) (by decide),
   C9_unrecognized_enum_throws.2 _ _ _ (by decide) (by decide)⟩

/-- C10: a line contributes a front-matter entry only when it contains a
colon immediately followed by a space with at least one character before the
colon and at least one after the space (the regex `.+: .+`); lines such as
`key:value` and `key: ` are skipped, yielding an empty mapping. -/
theorem C10_entry_requires_colon_space :
    (∀ (fm : List (String × String)) (line : String), processLine fm line ≠ fm →
      ∃ a b : List Char, a ≠ [] ∧ b ≠ [] ∧ line.data = a ++ ':' :: ' ' :: b)
    ∧ getNoCacheFrontMatter "---\nkey:value\nkey: \n---\n" = some [] := by
  constructor
  · intro fm line hne
    by_cases h1 : line = "---"
    · exact absurd (by simp [processLine, h1]) hne
    · by_cases h2 : kvTest line.data = true
      · exact kvTest_decomp _ h2
      · exact absurd (by simp [processLine, h1, h2]) hne
  · decide

/-- Witness for `C10_entry_requires_colon_space` at the concrete line
`"k: v"`, which does contribute an entry and indeed decomposes around
`": "`. -/
theorem C10_entry_requires_colon_space_witness :
    processLine [] "k: v" ≠ []
    ∧ ∃ a b : List Char, a ≠ [] ∧ b ≠ [] ∧ ("k: v").data = a ++ ':' :: ' ' :: b :=
  ⟨by decide, C10_entry_requires_colon_space.1 [] "k: v" (by decide)⟩
